import Mathlib

/-!
Shallow embedding of the Devbox `vm` package (package vm, file
`src/unnamed/part_000`): resource negotiation (`clamp`, `configureCPUs`,
`configureMemory`), the persisted scalar store (`loadStateData`,
`saveStateData`), root-disk creation (`rootDisk`), shared-directory
attachment (`attachSharedDirs`), platform identity
(`configureLinuxPlatform`), and the `Stop` select race.

Machine integers of the Go code (`int`, `int64`) are modelled as `Int`;
the quantities involved (CPU counts, byte sizes) never approach 2^63 in
any claim, and the Go code performs no wrapping arithmetic on them.
File contents are modelled as `List Char`.
-/

/-! ### Built-in defaults (source lines 23-27) -/

def DefaultCPUs : Int := 1

def DefaultMemory : Int := 1 <<< 30

def DefaultDisk : Int := 1 <<< 32

/-! ### clamp (source lines 209-217), instantiated at `int` -/

def clamp (value min max : Int) : Int :=
  if value < min then min
  else if value > max then max
  else value

/-! ### Go `fmt` "%v" rendering and scanning of integers.

`saveStateData` writes `fmt.Fprintf(f, "%v\n", value)`; for an `int`
this is the decimal digits, with a leading '-' for negative values,
followed by a newline. `loadStateData` reads with `fmt.Fscanf(f, "%v",
value)`; for a `*int` this skips leading white space, reads an optional
sign and then a maximal run of decimal digits. We model both at the
character level. -/

/-- Little-endian base-10 digits of `n`, with explicit structural fuel
(`n` itself is always enough fuel). -/
def decDigitsRev (fuel n : Nat) : List Nat :=
  match fuel with
  | 0 => []
  | fuel + 1 => if n = 0 then [] else n % 10 :: decDigitsRev fuel (n / 10)

/-- The character for one decimal digit. -/
def decChar (d : Nat) : Char := Char.ofNat (48 + d)

/-- Big-endian decimal digit characters of `n`; `"0"` for zero, matching
Go's `%v` rendering of integers. -/
def natDecChars (n : Nat) : List Char :=
  if n = 0 then ['0'] else ((decDigitsRev n n).reverse).map decChar

/-- `%v` rendering of a Go `int`: optional minus sign, then decimal digits. -/
def printIntV (v : Int) : List Char :=
  (if v < 0 then ['-'] else []) ++ natDecChars v.natAbs

/-- White space as skipped by `fmt`'s scanner (ASCII subset; the files
written by this package only ever contain `' '` and `'\n'`). -/
def isSpaceChar (c : Char) : Bool :=
  c = ' ' || c = '\t' || c = '\n' || c = '\r'

/-- Decimal-digit test used by the scanner. -/
def digitVal (c : Char) : Option Nat :=
  if 48 ≤ c.toNat ∧ c.toNat ≤ 57 then some (c.toNat - 48) else none

/-- Consume a maximal run of decimal digits. -/
def takeDigits : List Char → List Nat × List Char
  | [] => ([], [])
  | c :: rest =>
    match digitVal c with
    | some d =>
      let p := takeDigits rest
      (d :: p.1, p.2)
    | none => ([], c :: rest)

/-- Value of a big-endian digit list. -/
def decValue (ds : List Nat) : Nat :=
  ds.foldl (fun a d => 10 * a + d) 0

/-- Value of a little-endian digit list. -/
def decValueLE (ds : List Nat) : Nat :=
  ds.foldr (fun d a => 10 * a + d) 0

/-- `fmt.Fscanf` with `"%v"` into a `*int`: skip white space, optional
sign, then at least one decimal digit; `none` models a scan error. -/
def scanIntV (cs : List Char) : Option Int :=
  let cs1 := cs.dropWhile isSpaceChar
  let neg : Bool := cs1.head? == some '-'
  let cs2 := if cs1.head? = some '-' ∨ cs1.head? = some '+' then cs1.tail else cs1
  let p := takeDigits cs2
  if p.1 = [] then none
  else if neg then some (-(decValue p.1 : Int))
  else some ((decValue p.1 : Int))

/-! ### Persisted scalar store (source lines 502-544).

A data directory's scalar files, keyed by name; `none` is an absent
file. `saveStateData` opens with `O_TRUNC` and writes `"%v\n"`, so a
save replaces the whole file contents. `loadStateData` returns with the
destination untouched when the file is absent or the scan hits
unexpected EOF; `configureCPUs`/`configureMemory` additionally discard
its error, so a failed scan also leaves the destination untouched. -/

def ScalarStore : Type := String → Option (List Char)

def emptyStore : ScalarStore := fun _ => none

/-- `saveStateData(name, value)` for an integer value. -/
def saveStateDataInt (store : ScalarStore) (name : String) (v : Int) : ScalarStore :=
  fun n => if n = name then some (printIntV v ++ ['\n']) else store n

/-- `loadStateData(name, &dest)` for an integer destination, as observed
by a caller that ignores the returned error: absent file, short file or
failed scan leave `dest` unchanged. -/
def loadStateDataInt (store : ScalarStore) (name : String) (dest : Int) : Int :=
  match store name with
  | none => dest
  | some cs =>
    match scanIntV cs with
    | some n => n
    | none => dest

/-! ### Resource negotiation (source lines 173-207).

`configureCPUs` and `configureMemory` are textually identical up to the
scalar name structure the shared policy takes the requested value, the
built-in default, the scalar name and the host bounds. -/

def negotiateScalar (value dflt : Int) (name : String) (store : ScalarStore)
    (lo hi : Int) : Int × ScalarStore :=
  if value = 0 then
    let loaded := loadStateDataInt store name value
    if loaded = 0 then
      let v := clamp dflt lo hi
      (v, saveStateDataInt store name v)
    else
      let c := clamp loaded lo hi
      if loaded ≠ c then (c, saveStateDataInt store name c) else (loaded, store)
  else
    let c := clamp value lo hi
    if value ≠ c then (c, saveStateDataInt store name c) else (value, store)

/-- `configureCPUs` (source lines 173-189): `vm.CPUs` and the store
after the call, given host bounds `minCPU`, `maxCPU`. -/
def configureCPUs (cpus : Int) (store : ScalarStore) (minCPU maxCPU : Int) :
    Int × ScalarStore :=
  negotiateScalar cpus DefaultCPUs "cpu" store minCPU maxCPU

/-- `configureMemory` (source lines 191-207). -/
def configureMemory (memory : Int) (store : ScalarStore) (minMemory maxMemory : Int) :
    Int × ScalarStore :=
  negotiateScalar memory DefaultMemory "mem" store minMemory maxMemory

example : (configureCPUs 5 emptyStore 1 8).1 = 5 := by decide
example : (configureCPUs 12 emptyStore 1 8).1 = 8 := by decide
example : (configureCPUs 0 emptyStore 1 8).1 = 1 := by decide
example : (configureCPUs 0 emptyStore 2 8).1 = 2 := by decide
example : scanIntV (printIntV 37 ++ ['\n']) = some 37 := by decide
example : scanIntV (printIntV (-5) ++ ['\n']) = some (-5) := by decide

/-! ### Shared directories (source lines 387-421, 592-595).

`attachSharedDirs` in install mode appends the bootstrap-script
directory (read-only) and the boot-output directory (writable) to
`vm.SharedDirectories` with `append`, then builds one device
configuration per entry in list order. We model the final entry list
(the device list mirrors it one-to-one, in order). -/

structure SharedDirectory where
  Path : String
  ReadOnly : Bool
deriving DecidableEq

def attachSharedDirsList (install : Bool) (callerDirs : List SharedDirectory)
    (bootstrapDir bootOutDir : String) : List SharedDirectory :=
  if install then
    callerDirs ++
      [{ Path := bootstrapDir, ReadOnly := true },
       { Path := bootOutDir, ReadOnly := false }]
  else
    callerDirs

/-! ### Root disk (source lines 461-500).

The image file is opened with `O_RDWR|O_CREATE|O_EXCL`: when the file
already exists the open fails with `ErrExist`, `created` is false, and
the file is attached as-is. Only when the exclusive create succeeds is
the new (empty) file truncated to `vm.DiskSize`, after defaulting a zero
`DiskSize` to `DefaultDisk`. The image is modelled as its byte list; a
fresh truncate of an empty file produces zeros. The result is the new
`vm.DiskSize` field and the image contents. -/

def rootDisk (diskSize : Int) (existing : Option (List Nat)) : Int × List Nat :=
  match existing with
  | some img => (diskSize, img)
  | none =>
    let sz := if diskSize = 0 then DefaultDisk else diskSize
    (sz, List.replicate sz.toNat 0)

/-! ### Go `fmt` "%v" rendering and scanning of byte slices.

`saveStateData("id", vm.ID)` hands a `[]byte` to `fmt.Fprintf("%v\n")`,
which renders it as the space-separated decimal bytes in square
brackets, e.g. `[1 2]`. `loadStateData("id", &vm.ID)` hands a `*[]byte`
to `fmt.Fscanf("%v")`, which scans one white-space-delimited token and
stores the token's raw bytes (fmt's scanner treats `*[]byte` like a
string destination). -/

def sepBySpace : List (List Char) → List Char
  | [] => []
  | [x] => x
  | x :: xs => x ++ ' ' :: sepBySpace xs

/-- `%v` rendering of a Go `[]byte`. -/
def printBytesV (b : List Nat) : List Char :=
  '[' :: sepBySpace (b.map natDecChars) ++ [']']

/-- `fmt.Fscanf` with `"%v"` into a `*[]byte`: skip white space, take
one maximal non-white-space token, return its bytes (character codes). -/
def scanBytesV (cs : List Char) : List Nat :=
  (((cs.dropWhile isSpaceChar).takeWhile fun c => !isSpaceChar c).map Char.toNat)

/-- `saveStateData(name, value)` for a `[]byte` value. -/
def saveStateDataBytes (store : ScalarStore) (name : String) (b : List Nat) : ScalarStore :=
  fun n => if n = name then some (printBytesV b ++ ['\n']) else store n

/-- `loadStateData(name, &dest)` for a `[]byte` destination: absent file
or empty token (unexpected EOF) leaves `dest` unchanged. -/
def loadStateDataBytes (store : ScalarStore) (name : String) (dest : List Nat) : List Nat :=
  match store name with
  | none => dest
  | some cs =>
    match scanBytesV cs with
    | [] => dest
    | b => b

/-! ### Platform identity (source lines 354-385).

`configureLinuxPlatform` loads the `id` scalar into `vm.ID`; when the
result is empty it asks the engine for a fresh identity (`fresh` below
models `vz.NewGenericMachineIdentifier().DataRepresentation()`),
persists it, and uses it; otherwise it hands the loaded bytes to the
engine. The result is the identity bytes the VM uses and the store
after the call. -/

def configureLinuxPlatform (idField : List Nat) (store : ScalarStore)
    (fresh : List Nat) : List Nat × ScalarStore :=
  let loaded := loadStateDataBytes store "id" idField
  if loaded = [] then
    (fresh, saveStateDataBytes store "id" fresh)
  else
    (loaded, store)

example : (configureLinuxPlatform [] emptyStore [7]).1 = [7] := by decide
example : scanBytesV (printBytesV [1, 2] ++ ['\n']) = [91, 49] := by decide

/-! ### Stop (source lines 146-171).

`Stop` returns nil immediately when the VM was never started
(`vm.vzvm == nil`), before spawning anything. Otherwise it spawns a
goroutine that calls `RequestStop()`; on rejection (`!ok`) or error it
additionally calls the forced `Stop()` and sends the corresponding
error, on success it closes the channel (a nil result). The caller then
runs `select` over the context's done channel and the result channel.
Per the Go specification, when several `select` cases can proceed one is
chosen uniformly at random, so with an already-cancelled context the
outcome depends on whether the background goroutine has completed by the
time `select` commits: both branches are genuine executions. `stopExec`
is the resulting relation from (engine handle, context-cancelled flag)
to (returned error, engine calls issued by the observed task). -/

structure EngineHandle where
  requestStopOk : Bool
  requestStopErr : Option String
deriving DecidableEq

inductive StopOutcome where
  | ok
  | gracefulErr (msg : String)
  | invalidState
  | ctxCancelled
deriving DecidableEq

/-- The error the background goroutine delivers on its channel. -/
def stopTaskResult (e : EngineHandle) : StopOutcome :=
  match e.requestStopErr with
  | some m => StopOutcome.gracefulErr m
  | none => if e.requestStopOk then StopOutcome.ok else StopOutcome.invalidState

/-- The engine calls the background goroutine issues. -/
def stopTaskEngineCalls (e : EngineHandle) : List String :=
  "RequestStop" ::
    (if e.requestStopOk = true ∧ e.requestStopErr = none then [] else ["Stop"])

inductive stopExec : Option EngineHandle → Bool → StopOutcome × List String → Prop where
  /-- `vm.vzvm == nil`: return nil before doing anything. -/
  | neverStarted (ctxDone : Bool) : stopExec none ctxDone (StopOutcome.ok, [])
  /-- Context already cancelled and `select` picks the done channel; the
  orphaned goroutine still issues its engine calls in the background. -/
  | ctxFirst (e : EngineHandle) :
      stopExec (some e) true (StopOutcome.ctxCancelled, stopTaskEngineCalls e)
  /-- The goroutine's result is ready and `select` picks the channel
  (always possible, and the only branch when the context is live). -/
  | taskFirst (e : EngineHandle) (ctxDone : Bool) :
      stopExec (some e) ctxDone (stopTaskResult e, stopTaskEngineCalls e)

/-! ### Start error propagation (source lines 85-144, 561-590).

`startModel` mirrors which step results `Start` checks, in source order,
with the error-wrapping prefixes of the source. Each `StartEnv` field is
the outcome of the corresponding fallible operation (`none` = success).
`configureCPUs` and `configureMemory` have no error result; the
`loadStateData`/`saveStateData` errors inside them (fields
`cpuLoadErr`, `cpuSaveErr`, `memLoadErr`, `memSaveErr`) are discarded at
source lines 177, 180, 187, 195, 198 and 205, so `startModel` never
inspects them. `initLogger` (lines 561-590) checks its open errors but
only to fall back to `slog.Default()`; it cannot fail. `idSaveErr` is
the error of the `saveStateData("id", ...)` issued when a fresh identity
is generated (line 367). -/

structure StartEnv where
  bundleErr : Option String
  logOpenErr : Option String
  cpuLoadErr : Option String
  cpuSaveErr : Option String
  memLoadErr : Option String
  memSaveErr : Option String
  bootLoaderErr : Option String
  configCreateErr : Option String
  consoleErr : Option String
  diskErr : Option String
  networkErr : Option String
  entropyErr : Option String
  sharedDirsErr : Option String
  idLoadErr : Option String
  idSaveErr : Option String
  platformErr : Option String
  validateErr : Option String
  validateOk : Bool
  createVMErr : Option String
  startErr : Option String
deriving DecidableEq

/-- A `StartEnv` where every step succeeds. -/
def envOk : StartEnv :=
  { bundleErr := none, logOpenErr := none, cpuLoadErr := none, cpuSaveErr := none
    memLoadErr := none, memSaveErr := none, bootLoaderErr := none
    configCreateErr := none, consoleErr := none, diskErr := none
    networkErr := none, entropyErr := none, sharedDirsErr := none
    idLoadErr := none, idSaveErr := none, platformErr := none
    validateErr := none, validateOk := true, createVMErr := none, startErr := none }

inductive LoggerKind where
  | file
  | slogDefault
deriving DecidableEq

/-- `initLogger` (source lines 561-590): a log-file-open failure selects
`slog.Default()`; there is no error result. -/
def initLogger (env : StartEnv) : LoggerKind :=
  match env.logOpenErr with
  | some _ => LoggerKind.slogDefault
  | none => LoggerKind.file

/-- The error result of `configureLinuxPlatform` (source lines 354-385):
the `id` scalar load and save errors are checked and wrapped. -/
def configureLinuxPlatformErr (env : StartEnv) : Option String :=
  match env.idLoadErr with
  | some e => some ("load machine identifier: " ++ e)
  | none =>
    match env.idSaveErr with
    | some e => some ("save machine identifier: " ++ e)
    | none => env.platformErr

/-- `Start` (source lines 85-144): the returned error and the logger in
use, given each step's outcome. `none` in the first component means
Start succeeded. -/
def startModel (env : StartEnv) : Option String × Option LoggerKind :=
  match env.bundleErr with
  | some e => (some ("create directory for virtual machine data: " ++ e), none)
  | none =>
    let logger := some (initLogger env)
    match env.bootLoaderErr with
    | some e => (some ("create boot loader: " ++ e), logger)
    | none =>
      match env.configCreateErr with
      | some e => (some ("create virtual machine configuration: " ++ e), logger)
      | none =>
        match env.consoleErr with
        | some e => (some ("attach console: " ++ e), logger)
        | none =>
          match env.diskErr with
          | some e => (some ("attach disks: " ++ e), logger)
          | none =>
            match env.networkErr with
            | some e => (some ("attach network: " ++ e), logger)
            | none =>
              match env.entropyErr with
              | some e => (some ("attach entropy: " ++ e), logger)
              | none =>
                match env.sharedDirsErr with
                | some e => (some ("attach shared directories: " ++ e), logger)
                | none =>
                  match configureLinuxPlatformErr env with
                  | some e => (some ("configure linux platform: " ++ e), logger)
                  | none =>
                    match env.validateErr with
                    | some e => (some ("invalid configuration: " ++ e), logger)
                    | none =>
                      if !env.validateOk then (some "invalid configuration", logger)
                      else
                        match env.createVMErr with
                        | some e => (some ("create virtual machine: " ++ e), logger)
                        | none => (env.startErr, logger)

example : startModel envOk = (none, some LoggerKind.file) := by decide
example : (startModel { envOk with cpuSaveErr := some "disk full" }).1 = none := by decide
example : (startModel { envOk with idLoadErr := some "io" }).1.isSome = true := by decide

/-! ### Round-trip lemmas for the integer scalar encoding -/

theorem decValueLE_cons (d : Nat) (ds : List Nat) :
    decValueLE (d :: ds) = 10 * decValueLE ds + d := rfl

theorem decValueLE_decDigitsRev : ∀ fuel n : Nat, n ≤ fuel →
    decValueLE (decDigitsRev fuel n) = n := by
  intro fuel
  induction fuel with
  | zero =>
    intro n hn
    have : n = 0 := Nat.le_zero.mp hn
    simp [this, decDigitsRev, decValueLE]
  | succ fuel ih =>
    intro n hn
    by_cases h0 : n = 0
    · simp [h0, decDigitsRev, decValueLE]
    · have hdiv : n / 10 ≤ fuel := by omega
      rw [decDigitsRev]
      simp only [h0, if_false]
      rw [decValueLE_cons, ih (n / 10) hdiv]
      omega

theorem mem_decDigitsRev_lt : ∀ fuel n d : Nat, d ∈ decDigitsRev fuel n → d < 10 := by
  intro fuel
  induction fuel with
  | zero => intro n d hd; simp [decDigitsRev] at hd
  | succ fuel ih =>
    intro n d hd
    rw [decDigitsRev] at hd
    by_cases h0 : n = 0
    · simp [h0] at hd
    · simp only [h0, if_false, List.mem_cons] at hd
      rcases hd with h | h
      · omega
      · exact ih (n / 10) d h

theorem decChar_facts (d : Nat) (h : d < 10) :
    digitVal (decChar d) = some d ∧ isSpaceChar (decChar d) = false ∧
      decChar d ≠ '-' ∧ decChar d ≠ '+' := by
  interval_cases d <;> exact ⟨by decide, by decide, by decide, by decide⟩

theorem takeDigits_map_decChar (ds : List Nat) (hds : ∀ d ∈ ds, d < 10)
    (c : Char) (hc : digitVal c = none) (r : List Char) :
    takeDigits (ds.map decChar ++ c :: r) = (ds, c :: r) := by
  induction ds with
  | nil => simp [takeDigits, hc]
  | cons d tl ih =>
    have hd : d < 10 := hds d (List.mem_cons_self d tl)
    have htl : ∀ x ∈ tl, x < 10 := fun x hx => hds x (List.mem_cons_of_mem d hx)
    rw [List.map_cons, List.cons_append, takeDigits, (decChar_facts d hd).1,
      ih htl]

/-- The decimal characters of a positive `n` are a nonempty list of
digit characters whose big-endian value is `n`. -/
theorem natDecChars_spec (n : Nat) :
    ∃ ds : List Nat, natDecChars n = ds.map decChar ∧ ds ≠ [] ∧
      (∀ d ∈ ds, d < 10) ∧ decValue ds = n := by
  by_cases h0 : n = 0
  · exact ⟨[0], by simp [h0, natDecChars, decChar], by simp, by simp, by simp [decValue, h0]⟩
  · refine ⟨(decDigitsRev n n).reverse, by simp [natDecChars, h0], ?_, ?_, ?_⟩
    · intro hrev
      have hnil : decDigitsRev n n = [] := by
        simpa using congrArg List.reverse hrev
      rcases Nat.exists_eq_succ_of_ne_zero h0 with ⟨m, rfl⟩
      rw [decDigitsRev] at hnil
      simp [h0] at hnil
    · intro d hd
      exact mem_decDigitsRev_lt n n d (List.mem_reverse.mp hd)
    · show List.foldl (fun a d => 10 * a + d) 0 (decDigitsRev n n).reverse = n
      rw [List.foldl_reverse]
      exact decValueLE_decDigitsRev n n (Nat.le_refl n)

/-- The `"%v\n"` write format and the `"%v"` scan format are mutually
inverse for integers. -/
theorem scanIntV_printIntV (v : Int) : scanIntV (printIntV v ++ ['\n']) = some v := by
  rcases natDecChars_spec v.natAbs with ⟨ds, hmap, hne, hlt, hval⟩
  rcases List.exists_cons_of_ne_nil hne with ⟨d, tl, rfl⟩
  have hd : d < 10 := hlt d (List.mem_cons_self d tl)
  have hfacts := decChar_facts d hd
  by_cases hneg : v < 0
  · have habs : (v.natAbs : Int) = -v := by omega
    rw [printIntV]
    simp only [hneg, if_true, hmap]
    rw [scanIntV]
    have hdrop : List.dropWhile isSpaceChar
        ('-' :: (d :: tl).map decChar ++ ['\n']) =
        '-' :: ((d :: tl).map decChar ++ ['\n']) := by
      rw [List.cons_append, List.dropWhile_cons]
      simp [isSpaceChar]
    simp only [List.singleton_append, hdrop, List.head?_cons, List.tail_cons,
      true_or, if_true]
    rw [takeDigits_map_decChar (d :: tl) hlt '\n' (by decide) []]
    simp [hval, habs]
  · have habs : (v.natAbs : Int) = v := by omega
    rw [printIntV]
    simp only [hneg, if_false, hmap, List.nil_append]
    rw [scanIntV]
    have hdrop : List.dropWhile isSpaceChar ((d :: tl).map decChar ++ ['\n']) =
        (d :: tl).map decChar ++ ['\n'] := by
      rw [List.map_cons, List.cons_append, List.dropWhile_cons]
      simp [hfacts.2.1]
    simp only [hdrop]
    have hhead : ((d :: tl).map decChar ++ ['\n']).head? = some (decChar d) := by
      simp
    rw [hhead]
    have hsign : (some (decChar d) = some '-' ∨ some (decChar d) = some '+') = False := by
      simp [hfacts.2.2.1, hfacts.2.2.2]
    simp only [hsign, if_false]
    have hbeq : (some (decChar d) == some '-') = false := by
      simp [hfacts.2.2.1]
    rw [takeDigits_map_decChar (d :: tl) hlt '\n' (by decide) [], hval]
    simp [hbeq, habs]

/-! ## Claim theorems -/

theorem clamp_mem (lo hi v : Int) (h : lo ≤ hi) :
    lo ≤ clamp v lo hi ∧ clamp v lo hi ≤ hi := by
  unfold clamp; split_ifs <;> omega

theorem negotiateScalar_mem (v dflt : Int) (name : String) (store : ScalarStore)
    (lo hi : Int) (h : lo ≤ hi) :
    lo ≤ (negotiateScalar v dflt name store lo hi).1 ∧
      (negotiateScalar v dflt name store lo hi).1 ≤ hi := by
  have hc : ∀ x : Int, lo ≤ clamp x lo hi ∧ clamp x lo hi ≤ hi :=
    fun x => clamp_mem lo hi x h
  simp only [negotiateScalar]
  split_ifs with h1 h2 h3 h4
  · exact hc _
  · exact hc _
  · rw [not_ne_iff] at h3
    rw [h3]
    exact hc _
  · exact hc _
  · rw [not_ne_iff] at h4
    rw [h4]
    exact hc _

/-- C1: for every requested value and host bounds `lo ≤ hi`, the value
`configureCPUs`/`configureMemory` settles on lies within `[lo, hi]`, and
`clamp` maps a value below the minimum to the minimum, a value above the
maximum to the maximum, and leaves it unchanged otherwise. -/
theorem negotiatedValueWithinBounds (lo hi : Int) (h : lo ≤ hi) :
    (∀ (v : Int) (store : ScalarStore),
        lo ≤ (configureCPUs v store lo hi).1 ∧ (configureCPUs v store lo hi).1 ≤ hi) ∧
    (∀ (v : Int) (store : ScalarStore),
        lo ≤ (configureMemory v store lo hi).1 ∧
          (configureMemory v store lo hi).1 ≤ hi) ∧
    (∀ v : Int, (v < lo → clamp v lo hi = lo) ∧ (v > hi → clamp v lo hi = hi) ∧
        (lo ≤ v → v ≤ hi → clamp v lo hi = v)) := by
  refine ⟨fun v store => negotiateScalar_mem v DefaultCPUs "cpu" store lo hi h,
    fun v store => negotiateScalar_mem v DefaultMemory "mem" store lo hi h,
    fun v => ⟨?_, ?_, ?_⟩⟩ <;> (intros; unfold clamp; split_ifs <;> omega)

/-- Application of `negotiatedValueWithinBounds` at bounds `[1, 8]`. -/
theorem negotiatedValueWithinBounds_app :
    (1 : Int) ≤ 8 ∧
      (1 ≤ (configureCPUs 12 emptyStore 1 8).1 ∧ (configureCPUs 12 emptyStore 1 8).1 ≤ 8) ∧
      clamp 12 1 8 = 8 :=
  ⟨by decide, (negotiatedValueWithinBounds 1 8 (by decide)).1 12 emptyStore,
    ((negotiatedValueWithinBounds 1 8 (by decide)).2.2 12).2.1 (by decide)⟩

/-- C2: a zero (unset) request with nothing persisted yields
`clamp(default, lo, hi)`, and that value is written to the scalar file
unconditionally, even when clamping left the default unchanged. -/
theorem defaultClampedAndPersisted (store : ScalarStore) (lo hi : Int)
    (hcpu : store "cpu" = none) (hmem : store "mem" = none) :
    (configureCPUs 0 store lo hi).1 = clamp DefaultCPUs lo hi ∧
    (configureCPUs 0 store lo hi).2 "cpu" =
      some (printIntV (clamp DefaultCPUs lo hi) ++ ['\n']) ∧
    (configureMemory 0 store lo hi).1 = clamp DefaultMemory lo hi ∧
    (configureMemory 0 store lo hi).2 "mem" =
      some (printIntV (clamp DefaultMemory lo hi) ++ ['\n']) := by
  unfold configureCPUs configureMemory negotiateScalar loadStateDataInt saveStateDataInt
  simp [hcpu, hmem]

/-- Application of `defaultClampedAndPersisted` to the empty store with
bounds `[2, 8]` (where clamping does change the default) and `[1, 8]`
(where it does not). -/
theorem defaultClampedAndPersisted_app :
    emptyStore "cpu" = none ∧
      (configureCPUs 0 emptyStore 2 8).1 = clamp DefaultCPUs 2 8 ∧
      (configureCPUs 0 emptyStore 1 8).2 "cpu" =
        some (printIntV (clamp DefaultCPUs 1 8) ++ ['\n']) :=
  ⟨rfl, (defaultClampedAndPersisted emptyStore 2 8 rfl rfl).1,
    (defaultClampedAndPersisted emptyStore 1 8 rfl rfl).2.1⟩

/-- C3 (counterexample): with one caller-supplied entry, the
install-mode shared-directory list is not the two implicit entries
followed by the caller's entries — the code appends the implicit
entries, it does not prepend them. -/
theorem installerDirsNotFirst :
    attachSharedDirsList true [{ Path := "/caller", ReadOnly := false }] "/bs" "/boot" ≠
      [{ Path := "/bs", ReadOnly := true }, { Path := "/boot", ReadOnly := false },
       { Path := "/caller", ReadOnly := false }] := by decide

/-- C3 (amended): in install mode the shared-directory list is exactly
the caller-supplied entries followed by the two implicit entries — the
bootstrap-script directory read-only, then the boot-output directory
writable, in that order. -/
theorem installerDirsAppended (callerDirs : List SharedDirectory) (bs bo : String) :
    attachSharedDirsList true callerDirs bs bo =
      callerDirs ++
        [{ Path := bs, ReadOnly := true }, { Path := bo, ReadOnly := false }] := rfl

/-- C4: when the root disk image already exists, `rootDisk` opens it
as-is: contents (hence size) are unchanged whatever `DiskSize` requests,
and the `DiskSize` field itself is not touched either (the defaulting
and truncation happen only in the freshly-created branch). -/
theorem rootDiskExistingUnchanged (diskSize : Int) (img : List Nat) :
    rootDisk diskSize (some img) = (diskSize, img) := rfl

/-- C10: on first creation with a zero `DiskSize`, `rootDisk` sets the
field to `DefaultDisk = 2^32` bytes and truncates the new image to
exactly that size. -/
theorem rootDiskZeroDefaults :
    rootDisk 0 none = (DefaultDisk, List.replicate DefaultDisk.toNat 0) ∧
      DefaultDisk = 2 ^ 32 := by
  exact ⟨rfl, by decide⟩

/-- C5 (code bug): the identity persisted by a first
`configureLinuxPlatform` is not reloaded identically by a later one
against the same store. `fmt.Fprintf("%v\n")` renders the `[]byte`
identity `[1, 2]` as the text `[1 2]`, but `fmt.Fscanf("%v")` into a
`*[]byte` reads back only the first white-space-delimited token's raw
characters, giving `[91, 49]` (the codes of `'['` and `'1'`). -/
theorem identityRoundTripBroken :
    (configureLinuxPlatform [] emptyStore [1, 2]).1 = [1, 2] ∧
    (configureLinuxPlatform [] emptyStore [1, 2]).2 "id" =
      some ['[', '1', ' ', '2', ']', '\n'] ∧
    (configureLinuxPlatform []
        (configureLinuxPlatform [] emptyStore [1, 2]).2 [1, 2]).1 = [91, 49] ∧
    (configureLinuxPlatform []
        (configureLinuxPlatform [] emptyStore [1, 2]).2 [1, 2]).1 ≠ [1, 2] := by
  refine ⟨?_, ?_, ?_, ?_⟩ <;> decide

/-- C6: `Stop` on a VM whose engine handle is nil returns a nil error and
issues no engine calls. -/
theorem stopNeverStartedNoop (ctxDone : Bool) (r : StopOutcome × List String)
    (h : stopExec none ctxDone r) : r = (StopOutcome.ok, []) := by
  cases h
  rfl

/-- Application of `stopNeverStartedNoop` to the only execution of a
never-started Stop. -/
theorem stopNeverStartedNoop_app :
    (StopOutcome.ok, ([] : List String)) = (StopOutcome.ok, []) :=
  stopNeverStartedNoop true (StopOutcome.ok, []) (stopExec.neverStarted true)

/-- C7 (counterexample): with an already-cancelled context on a running
VM whose graceful-stop request is rejected, an execution of `Stop`
exists that returns the engine's "invalid machine state for stopping"
error rather than the cancellation error: when the background task has
already completed, the `select` may pick its channel. -/
theorem stopCancelledCanReturnEngineError :
    stopExec (some { requestStopOk := false, requestStopErr := none }) true
      (StopOutcome.invalidState, ["RequestStop", "Stop"]) ∧
    StopOutcome.invalidState ≠ StopOutcome.ctxCancelled := by
  refine ⟨?_, by decide⟩
  exact stopExec.taskFirst { requestStopOk := false, requestStopErr := none } true

/-- C7 (amended): with an already-cancelled context on a running VM,
`Stop` returns either the cancellation error or the background task's
own result — the choice is nondeterministic when both are ready — and
the cancellation-error outcome is always a possible execution. -/
theorem stopCancelledOutcomes (e : EngineHandle) :
    (∀ r, stopExec (some e) true r →
        r = (StopOutcome.ctxCancelled, stopTaskEngineCalls e) ∨
          r = (stopTaskResult e, stopTaskEngineCalls e)) ∧
    stopExec (some e) true (StopOutcome.ctxCancelled, stopTaskEngineCalls e) := by
  constructor
  · intro r h
    cases h with
    | ctxFirst e => exact Or.inl rfl
    | taskFirst e ctxDone => exact Or.inr rfl
  · exact stopExec.ctxFirst e

/-- Application of `stopCancelledOutcomes` to a handle whose graceful
stop succeeds. -/
theorem stopCancelledOutcomes_app :
    ((StopOutcome.ctxCancelled, stopTaskEngineCalls ⟨true, none⟩) =
        (StopOutcome.ctxCancelled, stopTaskEngineCalls ⟨true, none⟩) ∨
      (StopOutcome.ctxCancelled, stopTaskEngineCalls ⟨true, none⟩) =
        (stopTaskResult ⟨true, none⟩, stopTaskEngineCalls ⟨true, none⟩)) ∧
    stopExec (some ⟨true, none⟩) true
      (StopOutcome.ctxCancelled, stopTaskEngineCalls ⟨true, none⟩) :=
  ⟨(stopCancelledOutcomes ⟨true, none⟩).1 _ (stopCancelledOutcomes ⟨true, none⟩).2,
    (stopCancelledOutcomes ⟨true, none⟩).2⟩

/-- C8 (counterexample): failing loads and saves of the `cpu` and `mem`
scalars during negotiation do not abort Start — `configureCPUs` and
`configureMemory` discard those errors — so Start succeeds. -/
theorem startIgnoresNegotiationScalarErrors :
    (startModel
      { envOk with
          cpuLoadErr := some "read error"
          cpuSaveErr := some "disk full"
          memLoadErr := some "read error"
          memSaveErr := some "disk full" }).1 = none := by decide

/-- C8 (amended): during Start, the bundle/scalar IO failures that Start
checks are fatal (data-directory creation; the `id` scalar load and
save); a log-file-open failure degrades to `slog.Default()` and never
aborts Start; and `cpu`/`mem` scalar load/save failures during
negotiation are silently discarded, never aborting Start. -/
theorem startErrorFatality (e : String) :
    (startModel { envOk with bundleErr := some e }).1 =
      some ("create directory for virtual machine data: " ++ e) ∧
    (startModel { envOk with idLoadErr := some e }).1 =
      some ("configure linux platform: load machine identifier: " ++ e) ∧
    (startModel { envOk with idSaveErr := some e }).1 =
      some ("configure linux platform: save machine identifier: " ++ e) ∧
    startModel { envOk with logOpenErr := some e } =
      (none, some LoggerKind.slogDefault) ∧
    ∀ cl cs ml ms : Option String,
      (startModel
        { envOk with
            cpuLoadErr := cl
            cpuSaveErr := cs
            memLoadErr := ml
            memSaveErr := ms }).1 = none :=
  ⟨rfl, rfl, rfl, rfl, fun _ _ _ _ => rfl⟩

/-- C9: integer scalar round-trip: saving `v` under a name and loading
that name back yields `v` whatever the destination held and whatever was
stored before, and a second save overwrites the first, so the last saved
value is the one read back. -/
theorem scalarRoundTrip (store : ScalarStore) (name : String) (v w dest : Int) :
    loadStateDataInt (saveStateDataInt store name v) name dest = v ∧
    loadStateDataInt (saveStateDataInt (saveStateDataInt store name v) name w)
      name dest = w := by
  constructor <;> simp [loadStateDataInt, saveStateDataInt, scanIntV_printIntV]
